import Mathlib

/-!
Shallow embedding of `src/server.cjs` (fentsports-backend): the wallet-signature
authentication and score-submission core.  HTTP route handlers are embedded as
pure functions from a request value and a database state to a result value and
an updated database state.  Third-party primitives (`bs58`, `tweetnacl`,
`jsonwebtoken`, Mongoose persistence) are embedded at the granularity the
handlers observe them: base-58 decoding is implemented in full, Ed25519
verification is an abstract boolean parameter guarded by tweetnacl's size
checks, and JWT signing is a symbolic MAC (a token is valid under a secret iff
it was signed with that secret).
-/

namespace FentSports

/-- Errors thrown (as JS exceptions) by the embedded third-party primitives:
`bs58.decode` throws on a non-base-58 character; `nacl.sign.detached.verify`
throws on a signature that is not 64 bytes or a public key that is not
32 bytes. -/
inductive JsError where
  | nonBase58
  | badSignatureSize
  | badPublicKeySize
  deriving DecidableEq, Repr

/-- The base-58 alphabet used by `bs58` (Bitcoin alphabet). -/
def base58Alphabet : List Char :=
  "123456789ABCDEFGHJKLMNPQRSTUVWXYZabcdefghijkmnopqrstuvwxyz".toList

/-- Index of a character in the base-58 alphabet, `none` if not a base-58
character. -/
def b58Index (c : Char) : Option Nat :=
  base58Alphabet.findIdx? (· = c)

/-- Accumulate a big-endian base-58 digit string into a natural number;
fails on the first non-base-58 character (models `bs58.decode` throwing). -/
def b58NatAux : Nat → List Char → Option Nat
  | n, [] => some n
  | n, c :: cs =>
    match b58Index c with
    | none => none
    | some d => b58NatAux (n * 58 + d) cs

/-- Big-endian minimal byte representation of a natural number (empty for 0).
`fuel` bounds the recursion; any `fuel` at least the byte length works. -/
def natBytesAux : Nat → Nat → List Nat
  | 0, _ => []
  | _, 0 => []
  | fuel + 1, n => natBytesAux fuel (n / 256) ++ [n % 256]

/-- `bs58.decode`: strips leading `'1'` characters (each contributing a zero
byte), interprets the rest as a base-58 big-endian number, and returns its
bytes.  Returns `none` (models the thrown exception) iff some character is not
in the base-58 alphabet. -/
def bs58decode (s : String) : Option (List Nat) :=
  let cs := s.toList
  let z := (cs.takeWhile (· = '1')).length
  match b58NatAux 0 (cs.drop z) with
  | none => none
  | some n => some (List.replicate z 0 ++ natBytesAux cs.length n)

/-- UTF-8 message bytes (`new TextEncoder().encode(message)`), modelled as the
codepoint list — injective on strings, which is all the abstract verifier
observes. -/
def strBytes (s : String) : List Nat :=
  s.toList.map Char.toNat

/-- The mathematical content of Ed25519 verification, abstracted: a predicate
on (message bytes, signature bytes, public-key bytes).  The handlers are
parametric in it. -/
def EdCheck : Type :=
  List Nat → List Nat → List Nat → Bool

/-- `nacl.sign.detached.verify(msg, sig, publicKey)`: throws `bad signature
size` unless the signature is 64 bytes and `bad public key size` unless the
key is 32 bytes; otherwise returns the (abstract) verification verdict. -/
def naclVerify (ed : EdCheck) (msg sig pk : List Nat) : Except JsError Bool :=
  if sig.length ≠ 64 then .error .badSignatureSize
  else if pk.length ≠ 32 then .error .badPublicKeySize
  else .ok (ed msg sig pk)

/-- `SESSION_DURATION = 10 * 60` seconds. -/
def SESSION_DURATION : Nat := 10 * 60

/-- The payload carried by a session JWT: `jwt.sign({ wallet, game }, secret,
{ expiresIn: SESSION_DURATION })` adds `iat = now` and
`exp = now + SESSION_DURATION`. -/
structure JwtPayload where
  wallet : String
  game : String
  iat : Nat
  exp : Nat
  deriving DecidableEq, Repr

/-- Modelled from the spec: the `jsonwebtoken` library is not part of this
repository, so a signed token is embedded symbolically as its payload together
with the secret that signed it (possession of the signing secret is the entire
trust boundary — §4.2 of the spec). -/
structure SessionToken where
  payload : JwtPayload
  key : String
  deriving DecidableEq, Repr

/-- Errors raised by `jwt.verify`: `TokenExpiredError` and
`JsonWebTokenError` (bad signature / malformed encoding). -/
inductive JwtError where
  | TokenExpired
  | InvalidToken
  deriving DecidableEq, Repr

/-- `jwt.sign({ wallet, game }, secret, { expiresIn: SESSION_DURATION })` at
current time `now` (seconds). -/
def jwtSign (wallet game secret : String) (now : Nat) : SessionToken :=
  { payload := { wallet := wallet, game := game, iat := now, exp := now + SESSION_DURATION }
    key := secret }

/-- Modelled from the spec: `jwt.verify(token, secret)` of the `jsonwebtoken`
library — checks the signature (symbolically, that the token was signed with
`secret`), then rejects with `TokenExpiredError` when the current time is
greater than or equal to `exp` (jsonwebtoken compares
`clockTimestamp >= payload.exp`, i.e. expiry is inclusive). -/
def jwtVerify (t : SessionToken) (secret : String) (now : Nat) : Except JwtError JwtPayload :=
  if t.key ≠ secret then .error .InvalidToken
  else if t.payload.exp ≤ now then .error .TokenExpired
  else .ok t.payload

/-- The JS value found in the request's `sessionToken` field: absent
(`undefined`), the empty string (both falsy, failing the presence check), a
well-formed token string, or a non-empty string that is not a valid JWT. -/
inductive TokenField where
  | undef
  | emptyStr
  | tok (t : SessionToken)
  | malformed (s : String)
  deriving DecidableEq, Repr

/-- JS truthiness of the `sessionToken` field (`!sessionToken`). -/
def tokenPresent : TokenField → Bool
  | .undef => false
  | .emptyStr => false
  | .tok _ => true
  | .malformed _ => true

/-- `jwt.verify` applied to the raw request field: a malformed string raises
`JsonWebTokenError` (here `InvalidToken`); falsy fields never reach this point
in the handler but are mapped to the same error for totality. -/
def tokenVerify (secret : String) (now : Nat) : TokenField → Except JwtError JwtPayload
  | .tok t => jwtVerify t secret now
  | _ => .error .InvalidToken

/-- A stored `User` document (`userSchema`): `wallet` (unique, required),
`name` (maxlength 10), `createdAt` (defaulted to now at save time).  A request
that omits `name` is embedded with `name = ""` (spec §3: default empty). -/
structure User where
  wallet : String
  name : String
  createdAt : Nat
  deriving DecidableEq, Repr

/-- A stored `Score` document (`scoreSchema`): wallet, game, numeric score,
denormalized display name (default `""`), timestamp (defaulted to now). -/
structure Score where
  wallet : String
  game : String
  score : Int
  name : String
  timestamp : Nat
  deriving DecidableEq, Repr

/-- The backing record store: the `users` collection and the append-only
`scores` collection. -/
structure DB where
  users : List User
  scores : List Score
  deriving DecidableEq, Repr

/-- `User.findOne({ wallet })`. -/
def findUser (db : DB) (w : String) : Option User :=
  db.users.find? (fun u => u.wallet = w)

/-- Mongoose `maxlength: 10` validation run by `user.save()`: the document
saves iff the name has at most 10 characters. -/
def userNameValid (name : String) : Bool :=
  name.length ≤ 10

/-- Request body of `POST /api/register`.  Absent string fields are embedded
as `""` (`undefined` and `""` are equally falsy to every check the handler
performs); `skip` is the truthiness of the `skip` field. -/
structure RegisterRequest where
  wallet : String
  signature : String
  message : String
  name : String
  skip : Bool
  deriving DecidableEq, Repr

/-- Outcome of `POST /api/register`. -/
inductive RegisterResult where
  | missingWallet
  | missingFields
  | invalidSignature
  | internalError
  | success (u : User)
  deriving DecidableEq, Repr

/-- HTTP status attached to each register outcome by the handler. -/
def registerStatus : RegisterResult → Nat
  | .missingWallet => 400
  | .missingFields => 400
  | .invalidSignature => 400
  | .internalError => 500
  | .success _ => 200

/-- The signature check of the register handler: decodes the wallet, then the
signature, then calls `nacl.sign.detached.verify` — in program order, so the
first thrown exception wins. -/
def verifyRegSig (ed : EdCheck) (message signature wallet : String) : Except JsError Bool :=
  match bs58decode wallet with
  | none => .error .nonBase58
  | some pk =>
    match bs58decode signature with
    | none => .error .nonBase58
    | some sig => naclVerify ed (strBytes message) sig pk

/-- The user lookup-or-create step of the register handler (`User.findOne`,
then `new User({ wallet, name })` + `save()` when absent).  A failed
`maxlength` validation rejects the save, which the route's `catch` turns into
a 500 with no document written. -/
def registerUser (db : DB) (wallet name : String) (now : Nat) : RegisterResult × DB :=
  match findUser db wallet with
  | some u => (.success u, db)
  | none =>
    if userNameValid name then
      let u : User := { wallet := wallet, name := name, createdAt := now }
      (.success u, { db with users := db.users ++ [u] })
    else
      (.internalError, db)

/-- `app.post('/api/register')`: requires `wallet`; unless `skip` is truthy,
requires `signature` and `message` and verifies the signature (a thrown decode
or size error reaches the route's `catch` and yields a 500); then finds or
creates the `User`. -/
def apiRegister (ed : EdCheck) (now : Nat) (db : DB) (req : RegisterRequest) :
    RegisterResult × DB :=
  if req.wallet = "" then (.missingWallet, db)
  else if req.skip then registerUser db req.wallet req.name now
  else if req.signature = "" ∨ req.message = "" then (.missingFields, db)
  else
    match verifyRegSig ed req.message req.signature req.wallet with
    | .error _ => (.internalError, db)
    | .ok false => (.invalidSignature, db)
    | .ok true => registerUser db req.wallet req.name now

/-- Request body of `POST /api/session`. -/
structure SessionRequest where
  wallet : String
  game : String
  deriving DecidableEq, Repr

/-- Outcome of `POST /api/session`. -/
inductive SessionResult where
  | missingFields
  | issued (t : SessionToken)
  deriving DecidableEq, Repr

/-- `app.post('/api/session')`: requires `wallet` and `game`, then issues
`jwt.sign({ wallet, game }, JWT_SECRET, { expiresIn: SESSION_DURATION })`. -/
def apiSession (secret : String) (now : Nat) (req : SessionRequest) : SessionResult :=
  if req.wallet = "" ∨ req.game = "" then .missingFields
  else .issued (jwtSign req.wallet req.game secret now)

/-- Request body of `POST /api/score`.  `score` is `none` when the field is
`undefined`; absent strings are embedded as `""`. -/
structure ScoreRequest where
  wallet : String
  game : String
  score : Option Int
  sessionToken : TokenField
  clientSignature : String
  signatureMessage : String
  deriving DecidableEq, Repr

/-- Outcome of `POST /api/score`. -/
inductive ScoreResult where
  | missingFields
  | invalidOrExpiredToken
  | sessionMismatch
  | invalidSignature
  | internalError
  | success (s : Score)
  deriving DecidableEq, Repr

/-- HTTP status attached to each score outcome by the handler. -/
def scoreStatus : ScoreResult → Nat
  | .missingFields => 400
  | .invalidOrExpiredToken => 401
  | .sessionMismatch => 401
  | .invalidSignature => 401
  | .internalError => 500
  | .success _ => 200

/-- The presence check of the score handler:
`!wallet || !game || score === undefined || !sessionToken || !clientSignature
|| !signatureMessage` — every field but `score` is tested for truthiness
(empty string is missing), `score` strictly against `undefined`. -/
def missingScoreField (req : ScoreRequest) : Bool :=
  req.wallet = "" ∨ req.game = "" ∨ req.score = none ∨
    tokenPresent req.sessionToken = false ∨
    req.clientSignature = "" ∨ req.signatureMessage = ""

/-- The signature check of the score handler: encodes the message, decodes the
client signature, then the wallet, then calls `nacl.sign.detached.verify` — in
program order, so the first thrown exception wins. -/
def verifyClientSig (ed : EdCheck) (signatureMessage clientSignature wallet : String) :
    Except JsError Bool :=
  match bs58decode clientSignature with
  | none => .error .nonBase58
  | some sig =>
    match bs58decode wallet with
    | none => .error .nonBase58
    | some pk => naclVerify ed (strBytes signatureMessage) sig pk

/-- The display name recorded with a score: the registered user's name when
present and truthy, else `""` (`if (user && user.name) userName = user.name`). -/
def lookupName (db : DB) (wallet : String) : String :=
  match findUser db wallet with
  | some u => if u.name ≠ "" then u.name else ""
  | none => ""

/-- `app.post('/api/score')`: presence check, `jwt.verify` (its exceptions
caught and mapped to a 401), wallet/game match against the token payload,
client-signature verification (whose thrown decode/size errors fall through to
the route's `catch` and yield a 500), user-name lookup, then `Score` save. -/
def apiScore (ed : EdCheck) (secret : String) (now : Nat) (db : DB) (req : ScoreRequest) :
    ScoreResult × DB :=
  if missingScoreField req then (.missingFields, db)
  else
    match tokenVerify secret now req.sessionToken with
    | .error _ => (.invalidOrExpiredToken, db)
    | .ok payload =>
      if payload.wallet ≠ req.wallet ∨ payload.game ≠ req.game then
        (.sessionMismatch, db)
      else
        match verifyClientSig ed req.signatureMessage req.clientSignature req.wallet with
        | .error _ => (.internalError, db)
        | .ok false => (.invalidSignature, db)
        | .ok true =>
          let sc : Score :=
            { wallet := req.wallet, game := req.game, score := req.score.getD 0
              name := lookupName db req.wallet, timestamp := now }
          (.success sc, { db with scores := db.scores ++ [sc] })

/-! ### Concrete values used by witnesses

`w32` is a base-58 string decoding to a 32-byte public key (32 leading `'1'`
characters, i.e. 32 zero bytes) and `s64` one decoding to a 64-byte signature;
`edT` / `edF` are the abstract Ed25519 verdicts that accept / reject
everything. -/

/-- A wallet string whose base-58 decoding is 32 zero bytes. -/
def w32 : String := "11111111111111111111111111111111"

/-- A signature string whose base-58 decoding is 64 zero bytes. -/
def s64 : String := "1111111111111111111111111111111111111111111111111111111111111111"

/-- Abstract Ed25519 check that accepts everything. -/
def edT : EdCheck := fun _ _ _ => true

/-- Abstract Ed25519 check that rejects everything. -/
def edF : EdCheck := fun _ _ _ => false

/-- The empty database. -/
def dbE : DB := { users := [], scores := [] }

/-! ### Helper lemmas -/

/-- The recorded display name is the registered user's stored name, or `""`
when the wallet is unregistered. -/
lemma lookupName_eq (db : DB) (w : String) :
    lookupName db w = ((findUser db w).map User.name).getD "" := by
  unfold lookupName
  cases h : findUser db w with
  | none => rfl
  | some u =>
    by_cases hn : u.name = ""
    · simp [hn]
    · simp [hn]

/-- Number of stored users for a wallet. -/
def countWallet (db : DB) (w : String) : Nat :=
  (db.users.filter (fun u => u.wallet = w)).length

lemma countWallet_pos_of_findUser {db : DB} {w : String} {u : User}
    (h : findUser db w = some u) : 1 ≤ countWallet db w := by
  unfold findUser at h
  have hmem : u ∈ db.users := List.mem_of_find?_eq_some h
  have hp : u.wallet = w := by simpa using List.find?_some h
  have : u ∈ db.users.filter (fun u => u.wallet = w) := by
    simp [List.mem_filter, hmem, hp]
  unfold countWallet
  exact List.length_pos.mpr (fun he => by simp [he] at this)

lemma countWallet_zero_of_findUser_none {db : DB} {w : String}
    (h : findUser db w = none) : countWallet db w = 0 := by
  unfold findUser at h
  rw [List.find?_eq_none] at h
  unfold countWallet
  simp only [List.length_eq_zero, List.filter_eq_nil_iff]
  exact h

lemma countWallet_append {db : DB} {w : String} {u : User} (hu : u.wallet = w) :
    countWallet { db with users := db.users ++ [u] } w = countWallet db w + 1 := by
  unfold countWallet
  simp [List.filter_append, hu]

lemma findUser_append_self {db : DB} {w : String} {u : User}
    (hnone : findUser db w = none) (hu : u.wallet = w) :
    findUser { db with users := db.users ++ [u] } w = some u := by
  unfold findUser at *
  simp [List.find?_append, hnone, List.find?, hu]

/-- Inversion of the lookup-or-create step on a successful outcome. -/
lemma registerUser_success_inv {db : DB} {w n : String} {now : Nat} {u : User} {db2 : DB}
    (h : registerUser db w n now = (.success u, db2)) :
    (findUser db w = some u ∧ db2 = db) ∨
    (findUser db w = none ∧ userNameValid n = true ∧
      u = { wallet := w, name := n, createdAt := now } ∧
      db2 = { db with users := db.users ++ [u] }) := by
  unfold registerUser at h
  split at h
  next u' heq =>
    left
    obtain ⟨h1, h2⟩ := Prod.mk.injEq .. ▸ h
    cases h1
    exact ⟨heq, h2.symm⟩
  next heq =>
    split at h
    next hval =>
      right
      obtain ⟨h1, h2⟩ := Prod.mk.injEq .. ▸ h
      cases h1
      exact ⟨heq, hval, rfl, h2.symm⟩
    next => simp at h

/-- Inversion of the register handler on a successful outcome: the response
user was either found or freshly created-and-appended. -/
lemma apiRegister_success_inv {ed : EdCheck} {now : Nat} {db : DB} {req : RegisterRequest}
    {u : User} {db2 : DB}
    (h : apiRegister ed now db req = (.success u, db2)) :
    (findUser db req.wallet = some u ∧ db2 = db) ∨
    (findUser db req.wallet = none ∧ userNameValid req.name = true ∧
      u = { wallet := req.wallet, name := req.name, createdAt := now } ∧
      db2 = { db with users := db.users ++ [u] }) := by
  unfold apiRegister at h
  split at h
  · simp at h
  · split at h
    · exact registerUser_success_inv h
    · split at h
      · simp at h
      · split at h
        · simp at h
        · simp at h
        · exact registerUser_success_inv h

/-! ### Claims -/

/-- Claim C3: verifying a session token immediately after it is issued for
`(w, g)` succeeds and returns a payload whose wallet is `w` and game is `g`;
verifying the same token once the 600-second window has elapsed fails with
`TokenExpired`. -/
theorem session_verify_roundtrip (w g secret : String) (now t : Nat)
    (h : now + SESSION_DURATION ≤ t) :
    jwtVerify (jwtSign w g secret now) secret now =
      .ok { wallet := w, game := g, iat := now, exp := now + SESSION_DURATION } ∧
    jwtVerify (jwtSign w g secret now) secret t = .error .TokenExpired := by
  constructor
  · unfold jwtVerify jwtSign
    rw [if_neg (by simp), if_neg (by simp [SESSION_DURATION])]
  · unfold jwtVerify jwtSign
    rw [if_neg (by simp), if_pos (by simpa using h)]

/-- Witness for C3 at `w = "w"`, `g = "g"`, issuance time 0, checked at
times 0 and 600. -/
theorem session_verify_roundtrip_witness :
    jwtVerify (jwtSign "w" "g" "s" 0) "s" 0 =
      .ok { wallet := "w", game := "g", iat := 0, exp := 0 + SESSION_DURATION } ∧
    jwtVerify (jwtSign "w" "g" "s" 0) "s" 600 = .error .TokenExpired :=
  session_verify_roundtrip "w" "g" "s" 0 600 (by decide)

/-- Claim C7: token expiry is inclusive — verification at the instant equal to
the token's `exp` always fails (for any token, whatever its signing key), and
for a token issued with the process secret the failure at that instant is
precisely `TokenExpired`. -/
theorem expiry_boundary_inclusive :
    (∀ (t : SessionToken) (secret : String),
      ∃ e : JwtError, jwtVerify t secret t.payload.exp = .error e) ∧
    (∀ (w g secret : String) (n : Nat),
      jwtVerify (jwtSign w g secret n) secret (n + SESSION_DURATION) =
        .error .TokenExpired) := by
  constructor
  · intro t secret
    unfold jwtVerify
    by_cases h : t.key = secret
    · exact ⟨.TokenExpired, by rw [if_neg (by simp [h]), if_pos le_rfl]⟩
    · exact ⟨.InvalidToken, by rw [if_pos h]⟩
  · intro w g secret n
    unfold jwtVerify jwtSign
    rw [if_neg (by simp), if_pos le_rfl]

set_option maxRecDepth 8000 in
/-- Counterexample to C5: a registration with proof present whose signature
verification returns false is rejected with `invalidSignature` at HTTP status
400 — not the 401 the claim asserts. -/
theorem register_invalid_sig_status_counterexample :
    apiRegister edF 0 dbE
        { wallet := w32, signature := s64, message := "m", name := "ann", skip := false } =
      (.invalidSignature, dbE) ∧
    registerStatus .invalidSignature = 400 ∧ ¬ registerStatus .invalidSignature = 401 := by
  refine ⟨by decide, rfl, by decide⟩

/-- Claim C5 (amended): when the registration operation is called with a proof
present (skip not set) and signature verification returns false, the request
fails with `InvalidSignature` — returned with HTTP status 400 (the handler
uses 400 here, diverging from the spec's taxonomy line that maps
`InvalidSignature` to 401), and no user record is written. -/
theorem register_invalid_sig_400 (ed : EdCheck) (now : Nat) (db : DB)
    (req : RegisterRequest)
    (hw : ¬ req.wallet = "") (hskip : req.skip = false)
    (hs : ¬ req.signature = "") (hm : ¬ req.message = "")
    (hv : verifyRegSig ed req.message req.signature req.wallet = .ok false) :
    apiRegister ed now db req = (.invalidSignature, db) ∧
    registerStatus .invalidSignature = 400 := by
  refine ⟨?_, rfl⟩
  unfold apiRegister
  rw [if_neg hw, hskip]
  simp only [Bool.false_eq_true, if_false]
  rw [if_neg (by simp [hs, hm]), hv]

set_option maxRecDepth 8000 in
/-- Witness for C5 (amended) at a concrete rejected registration. -/
theorem register_invalid_sig_400_witness :
    apiRegister edF 0 dbE
        { wallet := w32, signature := s64, message := "m", name := "ann", skip := false } =
      (.invalidSignature, dbE) ∧
    registerStatus .invalidSignature = 400 :=
  register_invalid_sig_400 edF 0 dbE
    { wallet := w32, signature := s64, message := "m", name := "ann", skip := false }
    (by decide) rfl (by decide) (by decide) (by rfl)

set_option maxRecDepth 8000 in
/-- Counterexample to C2: in the score-submission operation, a client
signature that is not valid base-58 (here the single character `"0"`) makes
`bs58.decode` throw; the route's catch-all turns this into the
unexpected-failure 500 response instead of normalizing it to one of the
400/401 taxonomy kinds. -/
theorem score_decode_failure_500_counterexample :
    bs58decode "0" = none ∧
    apiScore edT "s" 0 dbE
        { wallet := w32, game := "g", score := some 1,
          sessionToken := .tok (jwtSign w32 "g" "s" 0),
          clientSignature := "0", signatureMessage := "m" } =
      (.internalError, dbE) ∧
    scoreStatus .internalError = 500 := by
  refine ⟨rfl, by decide, rfl⟩

/-- Claim C2 (amended): a base-58 decode failure (or a wrong-length
key/signature, which makes `nacl` throw) inside the signature check of either
the score-submission or the registration operation is caught by the route's
catch-all and answered with the unexpected-failure 500 response, with no
record written — it never crashes past the boundary, but it is not normalized
to the MissingFields/InvalidSignature/SessionMismatch/ExpiredToken/
InvalidToken kinds. -/
theorem decode_failure_caught_as_500 (ed : EdCheck) (secret : String) (now : Nat) (db : DB) :
    (∀ (req : ScoreRequest) (p : JwtPayload) (e : JsError),
       missingScoreField req = false →
       tokenVerify secret now req.sessionToken = .ok p →
       p.wallet = req.wallet → p.game = req.game →
       verifyClientSig ed req.signatureMessage req.clientSignature req.wallet = .error e →
       apiScore ed secret now db req = (.internalError, db) ∧
       scoreStatus .internalError = 500) ∧
    (∀ (req : RegisterRequest) (e : JsError) (now2 : Nat),
       ¬ req.wallet = "" → req.skip = false →
       ¬ req.signature = "" → ¬ req.message = "" →
       verifyRegSig ed req.message req.signature req.wallet = .error e →
       apiRegister ed now2 db req = (.internalError, db) ∧
       registerStatus .internalError = 500) := by
  constructor
  · intro req p e hmiss htok hpw hpg hsig
    refine ⟨?_, rfl⟩
    unfold apiScore
    rw [if_neg (by simp [hmiss]), htok]
    simp only
    rw [if_neg (by simp [hpw, hpg]), hsig]
  · intro req e now2 hw hskip hs hm hv
    refine ⟨?_, rfl⟩
    unfold apiRegister
    rw [if_neg hw, hskip]
    simp only [Bool.false_eq_true, if_false]
    rw [if_neg (by simp [hs, hm]), hv]

set_option maxRecDepth 8000 in
/-- Witness for C2 (amended): a malformed client signature in a score
submission and a malformed signature in a registration, both answered 500. -/
theorem decode_failure_caught_as_500_witness :
    (apiScore edT "s" 0 dbE
        { wallet := w32, game := "g", score := some 2,
          sessionToken := .tok (jwtSign w32 "g" "s" 0),
          clientSignature := "0x", signatureMessage := "m" } =
      (.internalError, dbE) ∧
     scoreStatus .internalError = 500) ∧
    (apiRegister edT 7 dbE
        { wallet := w32, signature := "0x", message := "m", name := "ann", skip := false } =
      (.internalError, dbE) ∧
     registerStatus .internalError = 500) :=
  ⟨(decode_failure_caught_as_500 edT "s" 0 dbE).1
      { wallet := w32, game := "g", score := some 2,
        sessionToken := .tok (jwtSign w32 "g" "s" 0),
        clientSignature := "0x", signatureMessage := "m" }
      { wallet := w32, game := "g", iat := 0, exp := 0 + SESSION_DURATION }
      .nonBase58 (by decide) (by rfl) (by decide) (by decide) (by rfl),
   (decode_failure_caught_as_500 edT "s" 0 dbE).2
      { wallet := w32, signature := "0x", message := "m", name := "ann", skip := false }
      .nonBase58 7 (by decide) rfl (by decide) (by decide) (by rfl)⟩

/-- A score request that passes every check (with the all-accepting abstract
verifier): used by witnesses. -/
def reqOK : ScoreRequest :=
  { wallet := w32, game := "g", score := some 5,
    sessionToken := .tok (jwtSign w32 "g" "s" 0),
    clientSignature := s64, signatureMessage := "m" }

/-- The score document persisted for `reqOK` against the empty store. -/
def scOK : Score :=
  { wallet := w32, game := "g", score := 5, name := "", timestamp := 0 }

/-- Claim C1: the scores collection changes only when, at submission time, all
six fields are present, the supplied session token is a well-formed token
signed with the process secret and not yet expired whose embedded wallet and
game equal the request's, and the client signature verifies over the supplied
message against the request wallet's key; any failed condition leaves the
store unchanged. -/
theorem score_persist_requires_auth (ed : EdCheck) (secret : String) (now : Nat)
    (db : DB) (req : ScoreRequest) (r : ScoreResult) (db2 : DB)
    (h : apiScore ed secret now db req = (r, db2))
    (hch : ¬ db2.scores = db.scores) :
    missingScoreField req = false ∧
    (∃ t : SessionToken, req.sessionToken = .tok t ∧ t.key = secret ∧
       now < t.payload.exp ∧ t.payload.wallet = req.wallet ∧
       t.payload.game = req.game) ∧
    verifyClientSig ed req.signatureMessage req.clientSignature req.wallet = .ok true := by
  unfold apiScore at h
  split at h
  next hmiss => cases h; exact absurd rfl hch
  next hmiss =>
    split at h
    next e heq => cases h; exact absurd rfl hch
    next p heq =>
      split at h
      next hne => cases h; exact absurd rfl hch
      next hne =>
        split at h
        next e heq2 => cases h; exact absurd rfl hch
        next heq2 => cases h; exact absurd rfl hch
        next heq2 =>
          cases h
          push_neg at hne
          refine ⟨by simpa using hmiss, ?_, heq2⟩
          rcases hst : req.sessionToken with _ | _ | t | s
          · rw [hst] at heq; simp [tokenVerify] at heq
          · rw [hst] at heq; simp [tokenVerify] at heq
          · rw [hst] at heq
            simp only [tokenVerify] at heq
            unfold jwtVerify at heq
            split at heq
            next => simp at heq
            next hk =>
              split at heq
              next => simp at heq
              next hexp =>
                have hp : t.payload = p := by simpa using heq
                refine ⟨t, rfl, not_not.mp hk, by omega, ?_, ?_⟩
                · rw [hp]; exact hne.1
                · rw [hp]; exact hne.2
          · rw [hst] at heq; simp [tokenVerify] at heq

set_option maxRecDepth 8000 in
/-- Witness for C1: a fully valid submission changes the scores collection,
and the theorem recovers the authorization facts for it. -/
theorem score_persist_requires_auth_witness :
    missingScoreField reqOK = false ∧
    (∃ t : SessionToken, reqOK.sessionToken = .tok t ∧ t.key = "s" ∧
       0 < t.payload.exp ∧ t.payload.wallet = reqOK.wallet ∧
       t.payload.game = reqOK.game) ∧
    verifyClientSig edT reqOK.signatureMessage reqOK.clientSignature reqOK.wallet =
      .ok true :=
  score_persist_requires_auth edT "s" 0 dbE reqOK (.success scOK)
    { dbE with scores := [scOK] } (by decide) (by decide)

/-- Claim C4: the score-submission checks run in program order and
short-circuit on the first failure — missing field (400), then token
verification (401), then wallet/game match (401), then signature verification
(401); only when all pass are the user lookup and the append of exactly one
score document performed. -/
theorem score_check_order (ed : EdCheck) (secret : String) (now : Nat) (db : DB)
    (req : ScoreRequest) :
    (missingScoreField req = true →
       apiScore ed secret now db req = (.missingFields, db) ∧
       scoreStatus .missingFields = 400) ∧
    (missingScoreField req = false →
       (∀ e : JwtError, tokenVerify secret now req.sessionToken = .error e →
          apiScore ed secret now db req = (.invalidOrExpiredToken, db) ∧
          scoreStatus .invalidOrExpiredToken = 401) ∧
       (∀ p : JwtPayload, tokenVerify secret now req.sessionToken = .ok p →
          ((¬ p.wallet = req.wallet ∨ ¬ p.game = req.game) →
             apiScore ed secret now db req = (.sessionMismatch, db) ∧
             scoreStatus .sessionMismatch = 401) ∧
          (p.wallet = req.wallet → p.game = req.game →
             (verifyClientSig ed req.signatureMessage req.clientSignature req.wallet =
                 .ok false →
                apiScore ed secret now db req = (.invalidSignature, db) ∧
                scoreStatus .invalidSignature = 401) ∧
             (verifyClientSig ed req.signatureMessage req.clientSignature req.wallet =
                 .ok true →
                ∃ sc : Score,
                  apiScore ed secret now db req =
                    (.success sc, { db with scores := db.scores ++ [sc] }) ∧
                  sc.wallet = req.wallet ∧ sc.game = req.game ∧
                  sc.score = req.score.getD 0 ∧
                  sc.name = lookupName db req.wallet)))) := by
  refine ⟨fun hmiss => ⟨?_, rfl⟩, fun hmiss => ⟨fun e he => ⟨?_, rfl⟩, fun p hp => ?_⟩⟩
  · unfold apiScore
    rw [if_pos hmiss]
  · unfold apiScore
    rw [if_neg (by simp [hmiss]), he]
  · refine ⟨fun hne => ⟨?_, rfl⟩, fun hpw hpg => ⟨fun hsig => ⟨?_, rfl⟩, fun hsig => ?_⟩⟩
    · unfold apiScore
      rw [if_neg (by simp [hmiss])]
      simp only [hp]
      rw [if_pos hne]
    · unfold apiScore
      rw [if_neg (by simp [hmiss])]
      simp only [hp]
      rw [if_neg (by simp [hpw, hpg])]
      simp only [hsig]
    · refine ⟨{ wallet := req.wallet, game := req.game, score := req.score.getD 0,
                name := lookupName db req.wallet, timestamp := now },
        ?_, rfl, rfl, rfl, rfl⟩
      unfold apiScore
      rw [if_neg (by simp [hmiss])]
      simp only [hp]
      rw [if_neg (by simp [hpw, hpg])]
      simp only [hsig]

/-- A score request with `score` undefined. -/
def reqMissing : ScoreRequest :=
  { reqOK with score := none }

/-- A score request whose session token is a non-empty string that is not a
valid JWT. -/
def reqBadTok : ScoreRequest :=
  { reqOK with sessionToken := .malformed "zzz" }

/-- A score request carrying a token issued for another game. -/
def reqMismatch : ScoreRequest :=
  { reqOK with sessionToken := .tok (jwtSign w32 "h" "s" 0) }

/-- The payload of `reqOK`'s token. -/
def payloadOK : JwtPayload :=
  { wallet := w32, game := "g", iat := 0, exp := 0 + SESSION_DURATION }

/-- The payload of `reqMismatch`'s token. -/
def payloadMis : JwtPayload :=
  { wallet := w32, game := "h", iat := 0, exp := 0 + SESSION_DURATION }

set_option maxRecDepth 8000 in
/-- Witness for C4: each of the five branches exercised at a concrete
request. -/
theorem score_check_order_witness :
    (apiScore edT "s" 0 dbE reqMissing = (.missingFields, dbE) ∧
       scoreStatus .missingFields = 400) ∧
    (apiScore edT "s" 0 dbE reqBadTok = (.invalidOrExpiredToken, dbE) ∧
       scoreStatus .invalidOrExpiredToken = 401) ∧
    (apiScore edT "s" 0 dbE reqMismatch = (.sessionMismatch, dbE) ∧
       scoreStatus .sessionMismatch = 401) ∧
    (apiScore edF "s" 0 dbE reqOK = (.invalidSignature, dbE) ∧
       scoreStatus .invalidSignature = 401) ∧
    (∃ sc : Score,
       apiScore edT "s" 0 dbE reqOK = (.success sc, { dbE with scores := dbE.scores ++ [sc] }) ∧
       sc.wallet = reqOK.wallet ∧ sc.game = reqOK.game ∧
       sc.score = reqOK.score.getD 0 ∧ sc.name = lookupName dbE reqOK.wallet) :=
  ⟨(score_check_order edT "s" 0 dbE reqMissing).1 (by decide),
   ((score_check_order edT "s" 0 dbE reqBadTok).2 (by decide)).1 .InvalidToken (by rfl),
   (((score_check_order edT "s" 0 dbE reqMismatch).2 (by decide)).2 payloadMis
       (by rfl)).1 (by decide),
   ((((score_check_order edF "s" 0 dbE reqOK).2 (by decide)).2 payloadOK
       (by rfl)).2 (by decide) (by decide)).1 (by rfl),
   ((((score_check_order edT "s" 0 dbE reqOK).2 (by decide)).2 payloadOK
       (by rfl)).2 (by decide) (by decide)).2 (by rfl)⟩

/-- Claim C8: a successful submission appends exactly one score document to
the scores collection, leaves the users collection unchanged, and stamps it
with the registered user's stored name — `""` when the wallet is
unregistered. -/
theorem submit_success_appends_record (ed : EdCheck) (secret : String) (now : Nat)
    (db : DB) (req : ScoreRequest) (sc : Score) (db2 : DB)
    (h : apiScore ed secret now db req = (.success sc, db2)) :
    db2.scores = db.scores ++ [sc] ∧ db2.users = db.users ∧
    sc.name = ((findUser db req.wallet).map User.name).getD "" ∧
    sc.wallet = req.wallet ∧ sc.game = req.game := by
  unfold apiScore at h
  split at h
  next => simp at h
  next hmiss =>
    split at h
    next e heq => simp at h
    next p heq =>
      split at h
      next hne => simp at h
      next hne =>
        split at h
        next e heq2 => simp at h
        next heq2 => simp at h
        next heq2 =>
          rw [Prod.mk.injEq] at h
          obtain ⟨h1, h2⟩ := h
          injection h1 with h1
          subst h1
          subst h2
          exact ⟨rfl, rfl, lookupName_eq db req.wallet, rfl, rfl⟩

/-- A store holding one registered user (`w32`, name `"ann"`). -/
def dbAnn : DB :=
  { users := [{ wallet := w32, name := "ann", createdAt := 0 }], scores := [] }

set_option maxRecDepth 8000 in
/-- Witness for C8: a submission against a store in which `w32` is registered
as `"ann"` appends one record named `"ann"`. -/
theorem submit_success_appends_record_witness :
    ({ dbAnn with scores := [{ scOK with name := "ann" }] } : DB).scores =
      dbAnn.scores ++ [{ scOK with name := "ann" }] ∧
    ({ dbAnn with scores := [{ scOK with name := "ann" }] } : DB).users = dbAnn.users ∧
    ({ scOK with name := "ann" } : Score).name =
      ((findUser dbAnn reqOK.wallet).map User.name).getD "" ∧
    ({ scOK with name := "ann" } : Score).wallet = reqOK.wallet ∧
    ({ scOK with name := "ann" } : Score).game = reqOK.game :=
  submit_success_appends_record edT "s" 0 dbAnn reqOK { scOK with name := "ann" }
    { dbAnn with scores := [{ scOK with name := "ann" }] } (by decide)

/-- Claim C9: the presence check tests `score` strictly against `undefined`,
not truthiness — a request with `score = 0` and the other five fields truthy
passes the presence check and, when otherwise valid, persists a record with
score 0; an empty-string wallet, game, session token, client signature, or
signature message is rejected as missing. -/
theorem score_zero_passes_presence (ed : EdCheck) (secret : String) (now : Nat) (db : DB) :
    (∀ req : ScoreRequest, req.score = some 0 → ¬ req.wallet = "" → ¬ req.game = "" →
       tokenPresent req.sessionToken = true → ¬ req.clientSignature = "" →
       ¬ req.signatureMessage = "" → missingScoreField req = false) ∧
    (∀ (req : ScoreRequest) (p : JwtPayload), req.score = some 0 →
       missingScoreField req = false →
       tokenVerify secret now req.sessionToken = .ok p →
       p.wallet = req.wallet → p.game = req.game →
       verifyClientSig ed req.signatureMessage req.clientSignature req.wallet = .ok true →
       ∃ (sc : Score) (db2 : DB),
         apiScore ed secret now db req = (.success sc, db2) ∧ sc.score = 0) ∧
    (∀ req : ScoreRequest,
       req.wallet = "" ∨ req.game = "" ∨ tokenPresent req.sessionToken = false ∨
         req.clientSignature = "" ∨ req.signatureMessage = "" →
       apiScore ed secret now db req = (.missingFields, db)) := by
  refine ⟨?_, ?_, ?_⟩
  · intro req h0 hw hg ht hcs hsm
    simp only [missingScoreField, decide_eq_false_iff_not]
    push_neg
    exact ⟨hw, hg, by simp [h0], by simp [ht], hcs, hsm⟩
  · intro req p h0 hmiss hp hpw hpg hsig
    refine ⟨{ wallet := req.wallet, game := req.game, score := req.score.getD 0,
              name := lookupName db req.wallet, timestamp := now },
      { db with scores := db.scores ++
          [{ wallet := req.wallet, game := req.game, score := req.score.getD 0,
             name := lookupName db req.wallet, timestamp := now }] },
      ?_, by simp [h0]⟩
    unfold apiScore
    rw [if_neg (by simp [hmiss])]
    simp only [hp]
    rw [if_neg (by simp [hpw, hpg])]
    simp only [hsig]
  · intro req h
    unfold apiScore
    rw [if_pos ?_]
    simp only [missingScoreField, decide_eq_true_eq]
    tauto

set_option maxRecDepth 8000 in
/-- Witness for C9: `score = 0` passes the presence check and is persisted
with score 0; an empty-string session token is rejected as missing. -/
theorem score_zero_passes_presence_witness :
    missingScoreField { reqOK with score := some 0 } = false ∧
    (∃ (sc : Score) (db2 : DB),
       apiScore edT "s" 0 dbE { reqOK with score := some 0 } = (.success sc, db2) ∧
       sc.score = 0) ∧
    apiScore edT "s" 0 dbE { reqOK with sessionToken := .emptyStr } =
      (.missingFields, dbE) :=
  ⟨(score_zero_passes_presence edT "s" 0 dbE).1 { reqOK with score := some 0 }
      rfl (by decide) (by decide) (by decide) (by decide) (by decide),
   (score_zero_passes_presence edT "s" 0 dbE).2.1 { reqOK with score := some 0 }
      payloadOK rfl (by decide) (by rfl) (by decide) (by decide) (by rfl),
   (score_zero_passes_presence edT "s" 0 dbE).2.2 { reqOK with sessionToken := .emptyStr }
      (by decide)⟩

/-- Claim C10: the user name bound is exactly 10 characters — for a
not-yet-registered wallet whose request passes its verification branch, a
name longer than 10 characters makes the save fail validation, the request is
answered 500 and no user document is written, while a name of at most 10
characters is created intact. -/
theorem register_name_maxlength (ed : EdCheck) (now : Nat) (db : DB)
    (req : RegisterRequest)
    (hw : ¬ req.wallet = "")
    (hver : req.skip = true ∨
      (¬ req.signature = "" ∧ ¬ req.message = "" ∧
        verifyRegSig ed req.message req.signature req.wallet = .ok true))
    (hnew : findUser db req.wallet = none) :
    (10 < req.name.length →
       apiRegister ed now db req = (.internalError, db) ∧
       registerStatus .internalError = 500) ∧
    (req.name.length ≤ 10 →
       ∃ u : User, apiRegister ed now db req =
         (.success u, { db with users := db.users ++ [u] }) ∧
         u.wallet = req.wallet ∧ u.name = req.name) := by
  have hred : apiRegister ed now db req = registerUser db req.wallet req.name now := by
    unfold apiRegister
    rw [if_neg hw]
    cases hsk : req.skip
    · simp only [Bool.false_eq_true, if_false]
      rcases hver with hskip | ⟨hs, hm, hv⟩
      · rw [hsk] at hskip; cases hskip
      · rw [if_neg (by simp [hs, hm]), hv]
    · simp only [if_true]
  constructor
  · intro hlen
    refine ⟨?_, rfl⟩
    rw [hred]
    unfold registerUser
    simp only [hnew]
    rw [if_neg (by simp only [userNameValid, decide_eq_true_eq]; omega)]
  · intro hlen
    refine ⟨{ wallet := req.wallet, name := req.name, createdAt := now }, ?_, rfl, rfl⟩
    rw [hred]
    unfold registerUser
    simp only [hnew]
    rw [if_pos (by simp only [userNameValid, decide_eq_true_eq]; omega)]

/-- A skip-path registration request with a 12-character name. -/
def reqLongName : RegisterRequest :=
  { wallet := "w", signature := "", message := "", name := "verylongname", skip := true }

/-- A skip-path registration request with a 3-character name. -/
def reqShortName : RegisterRequest :=
  { wallet := "w", signature := "", message := "", name := "ann", skip := true }

/-- Witness for C10: name `"verylongname"` (12 characters) is rejected with a
500 and writes nothing; name `"ann"` is created. -/
theorem register_name_maxlength_witness :
    (apiRegister edT 0 dbE reqLongName = (.internalError, dbE) ∧
     registerStatus .internalError = 500) ∧
    (∃ u : User, apiRegister edT 0 dbE reqShortName =
       (.success u, { dbE with users := dbE.users ++ [u] }) ∧
       u.wallet = reqShortName.wallet ∧ u.name = reqShortName.name) :=
  ⟨(register_name_maxlength edT 0 dbE reqLongName
      (by decide) (.inl rfl) (by decide)).1 (by decide),
   (register_name_maxlength edT 0 dbE reqShortName
      (by decide) (.inl rfl) (by decide)).2 (by decide)⟩

/-- Claim C6: two successful registrations for the same wallet return the same
user both times, leave the store with exactly one user document for that
wallet, and the second call never overwrites the stored name even when a
different name is supplied. -/
theorem register_idempotent (ed1 ed2 : EdCheck) (now1 now2 : Nat)
    (db db1 db2 : DB) (req1 req2 : RegisterRequest) (u1 u2 : User)
    (hw : req2.wallet = req1.wallet)
    (h1 : apiRegister ed1 now1 db req1 = (.success u1, db1))
    (h2 : apiRegister ed2 now2 db1 req2 = (.success u2, db2)) :
    u2 = u1 ∧ db2 = db1 ∧ u2.name = u1.name ∧
    findUser db2 req1.wallet = some u1 ∧
    countWallet db2 req1.wallet = max (countWallet db req1.wallet) 1 := by
  have hfind1 : findUser db1 req1.wallet = some u1 ∧
      countWallet db1 req1.wallet = max (countWallet db req1.wallet) 1 := by
    rcases apiRegister_success_inv h1 with ⟨hf, rfl⟩ | ⟨hf, _, hu, rfl⟩
    · exact ⟨hf, (max_eq_left (countWallet_pos_of_findUser hf)).symm⟩
    · constructor
      · exact findUser_append_self hf (by rw [hu])
      · rw [countWallet_append (by rw [hu]), countWallet_zero_of_findUser_none hf]
        decide
  rcases apiRegister_success_inv h2 with ⟨hf2, rfl⟩ | ⟨hf2, _, hu2, rfl⟩
  · rw [hw] at hf2
    have heq : some u1 = some u2 := hfind1.1.symm.trans hf2
    injection heq with heq
    exact ⟨heq.symm, rfl, by rw [heq], hfind1.1, hfind1.2⟩
  · rw [hw, hfind1.1] at hf2
    cases hf2

/-- A skip-path registration of `w32` under the name `"ann"`. -/
def reqRegAnn : RegisterRequest :=
  { wallet := w32, signature := "", message := "", name := "ann", skip := true }

/-- A second skip-path registration of `w32`, now supplying the name
`"bob"`. -/
def reqRegBob : RegisterRequest :=
  { wallet := w32, signature := "", message := "", name := "bob", skip := true }

/-- The user stored by `reqRegAnn` against the empty store. -/
def uAnn : User :=
  { wallet := w32, name := "ann", createdAt := 0 }

set_option maxRecDepth 8000 in
/-- Witness for C6: registering `w32` as `"ann"` and then again as `"bob"`
returns the `"ann"` user both times and stores one document. -/
theorem register_idempotent_witness :
    uAnn = uAnn ∧ dbAnn = dbAnn ∧ uAnn.name = uAnn.name ∧
    findUser dbAnn reqRegAnn.wallet = some uAnn ∧
    countWallet dbAnn reqRegAnn.wallet = max (countWallet dbE reqRegAnn.wallet) 1 :=
  register_idempotent edT edT 0 3 dbE dbAnn dbAnn reqRegAnn reqRegBob uAnn uAnn
    rfl (by decide) (by decide)

end FentSports
